import Mathlib

/-!
Shallow embedding of the network-bootstrap core of `bosh-agent`:
the HTTP metadata service (`infrastructure/http_metadata_service.go`)
and the CentOS network manager's idempotent-write / restart decision
(implementation outside the provided sources; modelled from the spec and
pinned by its test file `platform/net` centosNetManager tests).

External capabilities (filesystem, HTTP transport, JSON unmarshalling,
DNS resolver, SHA-1) are injected, exactly as they are injected
dependencies in the Go code; their outcomes are fields of an `Env`
record, and every operation returns an explicit trace of the effects it
performed (HTTP requests issued, SetupNetworking invocations, cache
reads and writes) so that "no HTTP call happened" is a provable
statement.
-/

namespace BoshAgent

/-- Errors are modelled by their message strings.
`bosherr.WrapError(err, msg)` renders as `"msg: err"`. -/
def wrapError (msg : String) (err : String) : String :=
  msg ++ ": " ++ err

/-- `boshsettings.Network`: the fields of the network spec that the code
under verification reads (`Type`, `IP`, `Netmask`, `Gateway`, `Mac`,
`DNS`, `Default`). -/
structure Network where
  type : String := ""
  ip : String := ""
  netmask : String := ""
  gateway : String := ""
  mac : String := ""
  dns : List String := []
  dflt : List String := []
deriving DecidableEq, Repr

/-- `boshsettings.Networks`: a map from logical network name to spec
entry, modelled as an association list. -/
def Networks : Type := List (String × Network)

instance : DecidableEq Networks := inferInstanceAs (DecidableEq (List (String × Network)))

/-- `boshsettings.NetworkTypeDynamic = "dynamic"`. -/
def NetworkTypeDynamic : String := "dynamic"

/-- State of the injected filesystem capability (`platform.GetFs()` on
the metadata side, the fake filesystem of the net-manager tests on the
other): file contents as an association list from path to content
(a symlink's stored content is its target), plus the sets of paths on
which reads respectively writes fail (mirroring the fakes'
`WriteFileErrors` / read errors; on a real filesystem a read of a
missing path fails the same way). -/
structure FsState where
  files : List (String × String) := []
  readFailures : List String := []
  writeFailures : List String := []
deriving DecidableEq, Repr

/-- Look a path up in the file table. -/
def lookupFile (l : List (String × String)) (p : String) : Option String :=
  match l with
  | [] => none
  | (q, c) :: rest => if q = p then some c else lookupFile rest p

/-- In-place update of the file table (writing to an existing path
replaces its content, a fresh path is appended). -/
def setFile (l : List (String × String)) (p : String) (c : String) : List (String × String) :=
  match l with
  | [] => [(p, c)]
  | (q, d) :: rest => if q = p then (q, c) :: rest else (q, d) :: setFile rest p c

/-- `fs.ReadFile(path)`: succeeds with the content iff the path is
present and not marked read-failing. -/
def FsState.readFile (fs : FsState) (path : String) : Except String String :=
  if path ∈ fs.readFailures then .error (wrapError "Reading file" path)
  else
    match lookupFile fs.files path with
    | some c => .ok c
    | none => .error (wrapError "File not found" path)

/-- `fs.WriteFile(path, content)`: fails on write-failing paths,
otherwise returns the updated state. -/
def FsState.writeFile (fs : FsState) (path : String) (content : String) :
    Except String FsState :=
  if path ∈ fs.writeFailures then .error (wrapError "Writing file" path)
  else .ok { fs with files := setFile fs.files path content }

/-- `UserDataContentsType`: the fields of the user-data document that
the source reads (`userData.Server.Name`, `userData.Registry.Endpoint`,
`userData.DNS.Nameserver`, `userData.Networks`), per §4.4 of the spec. -/
structure UserData where
  serverName : String := ""
  registryEndpoint : String := ""
  dnsNameserver : List String := []
  networks : Networks := []
deriving DecidableEq

/-- Outcomes of the injected external capabilities consumed by
`httpMetadataService`: the platform (configured-interface query and
`SetupNetworking`), the HTTP transport (`http.NewRequest`, the retry
client's `Do` — the bounded 10-attempt retry loop with fixed delay is
internal to `boshhttp.NewRetryClient` and only its net outcome is
visible here — and `ioutil.ReadAll` of the body), `json.Unmarshal` into
`UserDataContentsType`, the DNS resolver's `LookupHost`, and
`crypto/sha1` (as the hex rendering `%x` of `sha1.Sum`). -/
structure Env where
  getConfiguredNetworkInterfaces : Except String (List String)
  setupNetworkingResult : Networks → Except String Unit
  newRequestErr : String → Option String
  clientDoResult : String → Except String Unit
  readAllResult : String → Except String String
  unmarshalUserData : String → Except String UserData
  lookupHost : List String → String → Except String String
  sha1hex : String → String

/-- The `httpMetadataService` struct fields that drive the modelled
behaviour (logger and retry delay carry no observable behaviour here;
the retry delay only parameterises the retry client). -/
structure HttpMetadataService where
  metadataHost : String := ""
  metadataHeaders : List (String × String) := []
  userdataPath : String := ""
  instanceIDPath : String := ""
  sshKeysPath : String := ""
deriving DecidableEq, Repr

/-- Result of `doGet`: the returned value or error, the filesystem
state afterwards, the HTTP requests actually issued through the retry
client (`client.Do`), each carrying the extra headers that were added
to it, and the number of cache-file reads attempted. -/
structure DoGetOut where
  result : Except String String
  fs : FsState
  httpRequests : List (String × List (String × String)) := []
  cacheReads : Nat := 0
deriving Repr

/-- The cache path of a URL:
`fmt.Sprintf("/var/vcap/bosh/http-metadata-service-%x", sha1.Sum([]byte(url)))`. -/
def cachePath (env : Env) (url : String) : String :=
  "/var/vcap/bosh/http-metadata-service-" ++ env.sha1hex url

/-- `(ms httpMetadataService) doGet(url)`: read the cache file keyed by
the URL's SHA-1; on a hit return the cached bytes; on a miss build a GET
request with the service's metadata headers, run it through the
10-attempt retry client, read the body, persist it to the cache path and
return it (failing if the cache write fails). -/
def doGet (env : Env) (ms : HttpMetadataService) (fs : FsState) (url : String) : DoGetOut :=
  let cp := cachePath env url
  match fs.readFile cp with
  | .ok cachedRespBytes => { result := .ok cachedRespBytes, fs := fs, cacheReads := 1 }
  | .error _ =>
    match env.newRequestErr url with
    | some e => { result := .error e, fs := fs, cacheReads := 1 }
    | none =>
      match env.clientDoResult url with
      | .error e =>
        { result := .error e, fs := fs,
          httpRequests := [(url, ms.metadataHeaders)], cacheReads := 1 }
      | .ok _ =>
        match env.readAllResult url with
        | .error e =>
          { result := .error (wrapError "Reading user data response body" e), fs := fs,
            httpRequests := [(url, ms.metadataHeaders)], cacheReads := 1 }
        | .ok respBytes =>
          match fs.writeFile cp respBytes with
          | .error e =>
            { result := .error (wrapError "Caching response body" e), fs := fs,
              httpRequests := [(url, ms.metadataHeaders)], cacheReads := 1 }
          | .ok fs2 =>
            { result := .ok respBytes, fs := fs2,
              httpRequests := [(url, ms.metadataHeaders)], cacheReads := 1 }

/-- The single synthesized network passed to `SetupNetworking` by
`ensureMinimalNetworkSetup`:
`boshsettings.Networks{"eth0": {Type: boshsettings.NetworkTypeDynamic}}`. -/
def defaultDHCPNetworks : Networks :=
  [("eth0", { type := NetworkTypeDynamic })]

/-- Result of `ensureMinimalNetworkSetup`: outcome, how many times the
platform's configured-interface list was queried, and the arguments of
the `SetupNetworking` invocations it performed. -/
structure EnsureOut where
  result : Except String Unit
  ifaceQueries : Nat := 0
  setupCalls : List Networks := []

/-- `ensureMinimalNetworkSetup`: query the configured network
interfaces (failure wraps as "Getting configured network interfaces");
when none are configured, set up a single DHCP network on `eth0`
(failure wraps as "Setting up initial DHCP network"); otherwise leave
the existing configuration untouched. -/
def ensureMinimalNetworkSetup (env : Env) : EnsureOut :=
  match env.getConfiguredNetworkInterfaces with
  | .error e =>
    { result := .error (wrapError "Getting configured network interfaces" e), ifaceQueries := 1 }
  | .ok configuredInterfaces =>
    if configuredInterfaces.length = 0 then
      match env.setupNetworkingResult defaultDHCPNetworks with
      | .error e =>
        { result := .error (wrapError "Setting up initial DHCP network" e),
          ifaceQueries := 1, setupCalls := [defaultDHCPNetworks] }
      | .ok _ =>
        { result := .ok (), ifaceQueries := 1, setupCalls := [defaultDHCPNetworks] }
    else
      { result := .ok (), ifaceQueries := 1 }

/-- Result of a metadata accessor: the returned value or error, the
filesystem afterwards, and the full effect trace (interface queries,
`SetupNetworking` calls, HTTP requests, cache reads, `LookupHost`
calls). -/
structure FetchOut (α : Type) where
  result : Except String α
  fs : FsState
  ifaceQueries : Nat := 0
  setupCalls : List Networks := []
  httpRequests : List (String × List (String × String)) := []
  cacheReads : Nat := 0
  lookupCalls : List (List String × String) := []

/-- `GetPublicKey`: empty configured ssh-keys path returns `""` with no
error; otherwise ensure minimal networking, then fetch
`metadataHost ++ sshKeysPath`, wrapping a fetch failure as
"Getting open ssh key from url ...". -/
def GetPublicKey (env : Env) (ms : HttpMetadataService) (fs : FsState) : FetchOut String :=
  if ms.sshKeysPath = "" then { result := .ok "", fs := fs }
  else
    let ens := ensureMinimalNetworkSetup env
    match ens.result with
    | .error e =>
      { result := .error e, fs := fs,
        ifaceQueries := ens.ifaceQueries, setupCalls := ens.setupCalls }
    | .ok _ =>
      let url := ms.metadataHost ++ ms.sshKeysPath
      let g := doGet env ms fs url
      { result :=
          match g.result with
          | .error e => .error (wrapError ("Getting open ssh key from url " ++ url) e)
          | .ok respBytes => .ok respBytes,
        fs := g.fs, ifaceQueries := ens.ifaceQueries, setupCalls := ens.setupCalls,
        httpRequests := g.httpRequests, cacheReads := g.cacheReads }

/-- `GetInstanceID`: empty configured instance-id path returns `""` with
no error; otherwise ensure minimal networking, then fetch
`metadataHost ++ instanceIDPath`, wrapping a fetch failure as
"Getting instance id from url ...". -/
def GetInstanceID (env : Env) (ms : HttpMetadataService) (fs : FsState) : FetchOut String :=
  if ms.instanceIDPath = "" then { result := .ok "", fs := fs }
  else
    let ens := ensureMinimalNetworkSetup env
    match ens.result with
    | .error e =>
      { result := .error e, fs := fs,
        ifaceQueries := ens.ifaceQueries, setupCalls := ens.setupCalls }
    | .ok _ =>
      let url := ms.metadataHost ++ ms.instanceIDPath
      let g := doGet env ms fs url
      { result :=
          match g.result with
          | .error e => .error (wrapError ("Getting instance id from url " ++ url) e)
          | .ok respBytes => .ok respBytes,
        fs := g.fs, ifaceQueries := ens.ifaceQueries, setupCalls := ens.setupCalls,
        httpRequests := g.httpRequests, cacheReads := g.cacheReads }

/-- `GetValueAtPath`: an empty path argument is rejected immediately
with the (sic) "empthy path" error; otherwise ensure minimal networking,
then fetch `metadataHost ++ path`, wrapping a fetch failure as
"Getting value from url ...". -/
def GetValueAtPath (env : Env) (ms : HttpMetadataService) (fs : FsState) (path : String) :
    FetchOut String :=
  if path = "" then
    { result := .error "Can not retrieve metadata value for empthy path", fs := fs }
  else
    let ens := ensureMinimalNetworkSetup env
    match ens.result with
    | .error e =>
      { result := .error e, fs := fs,
        ifaceQueries := ens.ifaceQueries, setupCalls := ens.setupCalls }
    | .ok _ =>
      let url := ms.metadataHost ++ path
      let g := doGet env ms fs url
      { result :=
          match g.result with
          | .error e => .error (wrapError ("Getting value from url " ++ url) e)
          | .ok respBytes => .ok respBytes,
        fs := g.fs, ifaceQueries := ens.ifaceQueries, setupCalls := ens.setupCalls,
        httpRequests := g.httpRequests, cacheReads := g.cacheReads }

/-- `getUserData`: ensure minimal networking, fetch
`metadataHost ++ userdataPath` (failure wraps as
"Getting user data from url ..."), then `json.Unmarshal` the body
(failure wraps as "Unmarshalling user data '...'"). -/
def getUserData (env : Env) (ms : HttpMetadataService) (fs : FsState) : FetchOut UserData :=
  let ens := ensureMinimalNetworkSetup env
  match ens.result with
  | .error e =>
    { result := .error e, fs := fs,
      ifaceQueries := ens.ifaceQueries, setupCalls := ens.setupCalls }
  | .ok _ =>
    let userDataURL := ms.metadataHost ++ ms.userdataPath
    let g := doGet env ms fs userDataURL
    { result :=
        match g.result with
        | .error e => .error (wrapError ("Getting user data from url " ++ userDataURL) e)
        | .ok respBytes =>
          match env.unmarshalUserData respBytes with
          | .error e =>
            .error (wrapError ("Unmarshalling user data " ++ "'" ++ respBytes ++ "'") e)
          | .ok userData => .ok userData,
      fs := g.fs, ifaceQueries := ens.ifaceQueries, setupCalls := ens.setupCalls,
      httpRequests := g.httpRequests, cacheReads := g.cacheReads }

/-- `GetServerName`: fetch and parse user data (failure wraps as
"Getting user data"); a zero-length server name is the hard error
"Empty server name"; otherwise return the server name. -/
def GetServerName (env : Env) (ms : HttpMetadataService) (fs : FsState) : FetchOut String :=
  let u := getUserData env ms fs
  { u with
    result :=
      match u.result with
      | .error e => .error (wrapError "Getting user data" e)
      | .ok userData =>
        if userData.serverName.length = 0 then .error "Empty server name"
        else .ok userData.serverName }

/-- `GetRegistryEndpoint`: fetch and parse user data (failure wraps as
"Getting user data"); when the document supplies nameservers, substitute
the endpoint through `resolver.LookupHost` (failure wraps as
"Resolving registry endpoint"); otherwise return the endpoint exactly as
specified. -/
def GetRegistryEndpoint (env : Env) (ms : HttpMetadataService) (fs : FsState) :
    FetchOut String :=
  let u := getUserData env ms fs
  match u.result with
  | .error e => { u with result := .error (wrapError "Getting user data" e) }
  | .ok userData =>
    let endpoint := userData.registryEndpoint
    let nameServers := userData.dnsNameserver
    if nameServers.length > 0 then
      { u with
        lookupCalls := u.lookupCalls ++ [(nameServers, endpoint)],
        result :=
          match env.lookupHost nameServers endpoint with
          | .error e => .error (wrapError "Resolving registry endpoint" e)
          | .ok resolved => .ok resolved }
    else
      { u with result := .ok endpoint }

/-- `GetNetworks`: fetch and parse user data (failure wraps as
"Getting user data") and return the document's networks; there is no
configured-path guard in this accessor. -/
def GetNetworks (env : Env) (ms : HttpMetadataService) (fs : FsState) : FetchOut Networks :=
  let u := getUserData env ms fs
  { u with
    result :=
      match u.result with
      | .error e => .error (wrapError "Getting user data" e)
      | .ok userData => .ok userData.networks }

/-- `IsAvailable`: literally `return true`. -/
def IsAvailable (_ms : HttpMetadataService) : Bool := true

/-- `Load`: literally `return nil`. -/
def Load (_ms : HttpMetadataService) : Except String Unit := .ok ()

/-! ## CentOS network manager (spec-modelled)

The `centosNetManager` implementation of `SetupNetworking` is not among
the provided sources — only its test file is.  The definitions below are
modelled from §4.1 of the spec (discovery is taken as an input, the
discovered interface list; association, configuration creation,
rendering, the idempotent-write / single-"changed"-flag / restart
decision), with the rendered texts pinned byte-for-byte by the expected
strings of the test file.  The asynchronous address-broadcast stage is
outside the modelled state (it writes no files and runs no restart
command). -/

/-- A discovered network interface: name, MAC address, and whether a
device-backing marker made it physical. -/
structure Iface where
  name : String
  mac : String
  isPhysical : Bool
deriving DecidableEq, Repr

/-- A rendered configuration artifact: target path and would-be content
(for a symlink, the content is its target). -/
structure Artifact where
  path : String
  content : String
deriving DecidableEq, Repr

/-- The non-`vip` entries of a spec (`vip` networks are ignored
entirely). -/
def nonVipNetworks (nets : Networks) : Networks :=
  nets.filter (fun nn => nn.2.type ≠ "vip")

/-- Modelled from the spec: association (§4.1) — drop `vip` networks; a
network declaring a MAC binds to the physical interface with that MAC
(no match yields no configuration and is not fatal); a network declaring
no MAC is only valid when exactly one physical interface exists and
binds to it. -/
def associateNetworks (ifaces : List Iface) (nets : Networks) :
    Except String (List (String × Network)) :=
  let physical := ifaces.filter (·.isPhysical)
  let nonVip := nonVipNetworks nets
  nonVip.foldr
    (fun nn acc =>
      match acc with
      | .error e => .error e
      | .ok pairs =>
        if nn.2.mac ≠ "" then
          match physical.find? (fun i => i.mac = nn.2.mac) with
          | some i => .ok ((i.name, nn.2) :: pairs)
          | none => .ok pairs
        else
          match physical with
          | [i] => .ok ((i.name, nn.2) :: pairs)
          | _ => .error "Network has no MAC address and no single physical interface exists")
    (.ok [])

/-- One validated per-interface configuration record (§4.2): interface
name, dynamic marker or resolved static fields with the computed
broadcast address. -/
structure InterfaceConfiguration where
  name : String
  isDynamic : Bool := false
  ip : String := ""
  netmask : String := ""
  broadcast : String := ""
  gateway : String := ""
deriving DecidableEq, Repr

/-- `boshsettings.Networks.DefaultNetworkFor(role)`: a single network is
default for every role; otherwise the first network whose `Default` list
contains the role (pinned by the tests: the DNS servers rendered into
the ifcfg files and `dhclient.conf` are those of the default-for-"dns"
network). -/
def defaultNetworkFor (nets : Networks) (role : String) : Option Network :=
  match nets with
  | [nn] => some nn.2
  | _ => (nets.find? (fun nn => role ∈ nn.2.dflt)).map (·.2)

/-- Split a character list on a separator character. -/
def splitOnChar (sep : Char) : List Char → List (List Char)
  | [] => [[]]
  | c :: rest =>
    match splitOnChar sep rest with
    | g :: gs => if c = sep then [] :: g :: gs else (c :: g) :: gs
    | [] => if c = sep then [[], []] else [[c]]

/-- Decimal value of one digit character. -/
def digitVal (c : Char) : Option Nat :=
  if 48 ≤ c.toNat ∧ c.toNat ≤ 57 then some (c.toNat - 48) else none

/-- Accumulate a decimal number over a digit string. -/
def parseDecimalAux : List Char → Nat → Option Nat
  | [], acc => some acc
  | c :: rest, acc =>
    match digitVal c with
    | some d => parseDecimalAux rest (acc * 10 + d)
    | none => none

/-- Parse one dotted-quad octet: a nonempty all-digit string valued at
most 255. -/
def parseOctet (s : String) : Option Nat :=
  match s.data with
  | [] => none
  | cs =>
    match parseDecimalAux cs 0 with
    | some n => if n ≤ 255 then some n else none
    | none => none

/-- The dotted-quad separator character. -/
def dotChar : Char := '.'

/-- Parse an IPv4 dotted-quad address. -/
def parseIPv4 (s : String) : Option (Nat × Nat × Nat × Nat) :=
  match (splitOnChar dotChar s.data).map (fun cs => parseOctet (String.mk cs)) with
  | [some a, some b, some c, some d] => some (a, b, c, d)
  | _ => none

/-- Render four octets back to a dotted quad. -/
def showIPv4 (q : Nat × Nat × Nat × Nat) : String :=
  toString q.1 ++ "." ++ toString q.2.1 ++ "." ++ toString q.2.2.1 ++ "." ++ toString q.2.2.2

/-- Bitwise OR of two octet values, by structural recursion over eight
bits (operands taken mod 256). -/
def orBitsAux : Nat → Nat → Nat → Nat
  | 0, _, _ => 0
  | fuel + 1, a, b =>
    (if a % 2 = 1 ∨ b % 2 = 1 then 1 else 0) + 2 * orBitsAux fuel (a / 2) (b / 2)

/-- Bitwise OR on octets. -/
def orOctet (a b : Nat) : Nat := orBitsAux 8 (a % 256) (b % 256)

/-- Broadcast address: per octet, `IP | ~netmask` (the complement of an
octet `m ≤ 255` is `255 - m`). -/
def broadcastAddress (ipq mq : Nat × Nat × Nat × Nat) : Nat × Nat × Nat × Nat :=
  (orOctet ipq.1 (255 - mq.1), orOctet ipq.2.1 (255 - mq.2.1),
   orOctet ipq.2.2.1 (255 - mq.2.2.1), orOctet ipq.2.2.2 (255 - mq.2.2.2))

/-- Modelled from the spec: the Interface Configuration Creator (§4.2) —
`dynamic` networks pass their DNS list through; other networks parse
IP/netmask/gateway as IPv4 dotted quads (a parse failure is the
validation error) and compute the broadcast address. -/
def createInterfaceConfiguration (ifaceName : String) (n : Network) :
    Except String InterfaceConfiguration :=
  if n.type = NetworkTypeDynamic then
    .ok { name := ifaceName, isDynamic := true }
  else
    match parseIPv4 n.ip, parseIPv4 n.netmask, parseIPv4 n.gateway with
    | some ipq, some mq, some _ =>
      .ok { name := ifaceName, ip := n.ip, netmask := n.netmask,
            broadcast := showIPv4 (broadcastAddress ipq mq), gateway := n.gateway }
    | _, _, _ => .error "Invalid network fields"

/-- Up to two `DNS1=`/`DNS2=` lines in specification order, emitted only
when DNS servers are present. -/
def dnsLines (dns : List String) : String :=
  match dns with
  | [] => ""
  | [d1] => "DNS1=" ++ d1 ++ "\n"
  | d1 :: d2 :: _ => "DNS1=" ++ d1 ++ "\nDNS2=" ++ d2 ++ "\n"

/-- Modelled from the spec: the static ifcfg body (§4.1, pinned by the
test's `expectedNetworkConfigurationForStatic`); the DNS lines carry the
shared default-for-dns server list. -/
def renderStaticIfcfg (dnsServers : List String) (c : InterfaceConfiguration) : String :=
  "DEVICE=" ++ c.name ++ "\n" ++
  "BOOTPROTO=static\n" ++
  "IPADDR=" ++ c.ip ++ "\n" ++
  "NETMASK=" ++ c.netmask ++ "\n" ++
  "BROADCAST=" ++ c.broadcast ++ "\n" ++
  "GATEWAY=" ++ c.gateway ++ "\n" ++
  "ONBOOT=yes\n" ++
  "NM_CONTROLLED=no\n" ++
  "PEERDNS=no\n" ++
  dnsLines dnsServers

/-- Modelled from the spec: the DHCP ifcfg body (§4.1, pinned by the
test's `expectedNetworkConfigurationForDHCP`). -/
def renderDynamicIfcfg (c : InterfaceConfiguration) : String :=
  "DEVICE=" ++ c.name ++ "\n" ++
  "BOOTPROTO=dhcp\n" ++
  "ONBOOT=yes\n" ++
  "PEERDNS=yes\n"

/-- The ifcfg body for one interface configuration. -/
def renderIfcfg (dnsServers : List String) (c : InterfaceConfiguration) : String :=
  if c.isDynamic then renderDynamicIfcfg c else renderStaticIfcfg dnsServers c

/-- Modelled from the spec: the shared `dhclient.conf` body (§4.1,
pinned by the test's `expectedDhclientConfiguration`): fixed banner,
classless-static-routes option, hostname send clause, canonical request
clause, and a `prepend domain-name-servers` clause only when some
dynamic network supplies DNS servers. -/
def dhclientConf (dns : List String) : String :=
  "# Generated by bosh-agent\n\n" ++
  "option rfc3442-classless-static-routes code 121 = array of unsigned integer 8;\n\n" ++
  "send host-name \"<hostname>\";\n\n" ++
  "request subnet-mask, broadcast-address, time-offset, routers,\n" ++
  "\tdomain-name, domain-name-servers, domain-search, host-name,\n" ++
  "\tnetbios-name-servers, netbios-scope, interface-mtu,\n" ++
  "\trfc3442-classless-static-routes, ntp-servers;\n\n" ++
  (if dns.isEmpty then "" else "prepend domain-name-servers " ++ String.intercalate ", " dns ++ ";\n")

/-- Modelled from the spec: the artifact list of one pass (§4.1) — one
ifcfg file per configured interface under
`/etc/sysconfig/network-scripts/ifcfg-<iface>`; when at least one
dynamic network exists, the shared `/etc/dhcp/dhclient.conf` body plus
one symlink `/etc/dhcp/dhclient-<iface>.conf` pointing at it per
DHCP-bound interface; when none exists, neither is written. -/
def renderArtifacts (dnsServers : List String) (configs : List InterfaceConfiguration) :
    List Artifact :=
  let ifcfgs := configs.map (fun c =>
    { path := "/etc/sysconfig/network-scripts/ifcfg-" ++ c.name,
      content := renderIfcfg dnsServers c })
  let dynamics := configs.filter (·.isDynamic)
  if dynamics.isEmpty then ifcfgs
  else
    ifcfgs ++
    [{ path := "/etc/dhcp/dhclient.conf", content := dhclientConf dnsServers }] ++
    dynamics.map (fun c =>
      { path := "/etc/dhcp/dhclient-" ++ c.name ++ ".conf", content := "/etc/dhcp/dhclient.conf" })

/-- Result of the write pass: filesystem afterwards, the single
"network changed" flag, and the first write error if any. -/
structure WriteRes where
  fs : FsState
  changed : Bool
  writeErr : Option String := none
deriving Repr

/-- Modelled from the spec: the idempotent write pass (§4.1) — for each
artifact in order, compare its would-be content against the current
on-disk state, folding "differs (including a missing file)" into one
boolean flag across all artifacts, then write it; an I/O failure aborts
with an error naming the failing path. -/
def writeArtifacts (fs : FsState) (arts : List Artifact) (changed : Bool) : WriteRes :=
  match arts with
  | [] => { fs := fs, changed := changed }
  | a :: rest =>
    let changed' := changed || decide (lookupFile fs.files a.path ≠ some a.content)
    match fs.writeFile a.path a.content with
    | .error e => { fs := fs, changed := changed', writeErr := some e }
    | .ok fs2 => writeArtifacts fs2 rest changed'

/-- The OS network-restart command: `service network restart`. -/
def restartCmd : List String := ["service", "network", "restart"]

/-- Result of `SetupNetworking` (broadcast excluded): filesystem
afterwards, commands run, and the synchronous outcome. -/
structure NetOut where
  fs : FsState
  runCommands : List (List String) := []
  result : Except String Unit
deriving Repr

/-- The shared DNS server list of one pass: the DNS servers of the
default-for-"dns" network among the non-vip entries. -/
def dnsServersOf (nets : Networks) : List String :=
  match defaultNetworkFor (nonVipNetworks nets) "dns" with
  | some n => n.dns
  | none => []

/-- The artifacts one `SetupNetworking` pass would write for the given
discovered interfaces and spec (empty when association or configuration
creation fails). -/
def plannedArtifacts (ifaces : List Iface) (nets : Networks) : List Artifact :=
  match associateNetworks ifaces nets with
  | .error _ => []
  | .ok pairs =>
    match pairs.mapM (fun p => createInterfaceConfiguration p.1 p.2) with
    | .error _ => []
    | .ok configs => renderArtifacts (dnsServersOf nets) configs

/-- Modelled from the spec: `SetupNetworking` (§4.1, synchronous part) —
associate the spec to the discovered interfaces, create one validated
configuration per bound pair (failure wraps as "Creating interface
configurations"), render all artifacts, write them idempotently tracking
the single changed flag, and invoke the network-restart command exactly
once iff the flag is set (the command's own failure, `restartResult`,
surfaces verbatim). -/
def setupNetworking (ifaces : List Iface) (nets : Networks)
    (restartResult : Except String Unit) (fs : FsState) : NetOut :=
  match associateNetworks ifaces nets with
  | .error e => { fs := fs, result := .error e }
  | .ok pairs =>
    match pairs.mapM (fun p => createInterfaceConfiguration p.1 p.2) with
    | .error e =>
      { fs := fs, result := .error (wrapError "Creating interface configurations" e) }
    | .ok configs =>
      let w := writeArtifacts fs (renderArtifacts (dnsServersOf nets) configs) false
      match w.writeErr with
      | some e => { fs := w.fs, result := .error e }
      | none =>
        if w.changed then
          { fs := w.fs, runCommands := [restartCmd],
            result :=
              match restartResult with
              | .error e => .error e
              | .ok _ => .ok () }
        else
          { fs := w.fs, result := .ok () }

/-! ## Concrete fixtures

Inputs used to exercise the model on closed instances, mirroring the
fixtures of the Go test file. -/

/-- A parsed user-data document fixture. -/
def userDataFix : UserData :=
  { serverName := "fake-server", registryEndpoint := "http://registry.example:25777",
    dnsNameserver := ["8.8.8.8", "9.9.9.9"],
    networks := [("net-1", { type := "manual", ip := "1.2.3.4" })] }

/-- A benign environment: one configured interface, all external calls
succeed. -/
def envBase : Env :=
  { getConfiguredNetworkInterfaces := .ok ["eth0"],
    setupNetworkingResult := fun _ => .ok (),
    newRequestErr := fun _ => none,
    clientDoResult := fun _ => .ok (),
    readAllResult := fun _ => .ok "fake-user-data",
    unmarshalUserData := fun _ => .ok userDataFix,
    lookupHost := fun _ endpoint => .ok ("resolved-" ++ endpoint),
    sha1hex := fun _ => "aa" }

/-- Environment whose configured-interface query fails. -/
def envQueryErr : Env :=
  { envBase with getConfiguredNetworkInterfaces := .error "fake-get-interfaces-error" }

/-- Environment with no configured interfaces and a failing
`SetupNetworking`. -/
def envSetupErr : Env :=
  { envBase with
    getConfiguredNetworkInterfaces := .ok [],
    setupNetworkingResult := fun _ => .error "fake-setup-error" }

/-- A fully configured metadata service fixture. -/
def msBase : HttpMetadataService :=
  { metadataHost := "http://fake-metadata-host", metadataHeaders := [("key", "value")],
    userdataPath := "/user-data", instanceIDPath := "/instance-id",
    sshKeysPath := "/ssh-keys" }

/-- A metadata service fixture whose configured paths are all empty. -/
def msEmptyPaths : HttpMetadataService := { metadataHost := "http://fake-metadata-host" }

/-- The empty filesystem. -/
def fsEmpty : FsState := {}

/-- A filesystem already holding a cache entry for every URL hashed by
`envBase` (its stub hash is constantly `"aa"`). -/
def fsHit : FsState :=
  { files := [("/var/vcap/bosh/http-metadata-service-aa", "cached-response")] }

/-- A filesystem on which writing the `envBase` cache path fails. -/
def fsWriteFail : FsState :=
  { writeFailures := ["/var/vcap/bosh/http-metadata-service-aa"] }

/-- The discovered-interface fixture of the net-manager tests: a static
and a DHCP physical interface. -/
def ifacesFix : List Iface :=
  [{ name := "ethstatic", mac := "fake-static-mac-address", isPhysical := true },
   { name := "ethdhcp", mac := "fake-dhcp-mac-address", isPhysical := true }]

/-- The network-spec fixture of the net-manager tests. -/
def netsFix : Networks :=
  [("dhcp-network",
    { type := "dynamic", dflt := ["dns"], dns := ["8.8.8.8", "9.9.9.9"],
      mac := "fake-dhcp-mac-address" }),
   ("static-network",
    { type := "manual", ip := "1.2.3.4", netmask := "255.255.255.0", gateway := "3.4.5.6",
      mac := "fake-static-mac-address" })]

/-- The filesystem after one successful converging pass over
`ifacesFix`/`netsFix`. -/
def fsConverged : FsState := (setupNetworking ifacesFix netsFix (.ok ()) fsEmpty).fs

/-- `fsConverged` with exactly one previously-written ifcfg file
perturbed to stale content. -/
def fsOneDiff : FsState :=
  { fsConverged with
    files := setFile fsConverged.files
      "/etc/sysconfig/network-scripts/ifcfg-ethstatic" "stale-content" }

/-- Environment whose user-data document parses with an empty server
name. -/
def envEmptyName : Env :=
  { envBase with unmarshalUserData := fun _ => .ok { userDataFix with serverName := "" } }

/-- Environment whose user-data document supplies no nameservers. -/
def envNoNameservers : Env :=
  { envBase with unmarshalUserData := fun _ => .ok { userDataFix with dnsNameserver := [] } }

/-- Environment whose DNS resolution fails. -/
def envLookupErr : Env :=
  { envBase with lookupHost := fun _ _ => .error "fake-lookup-error" }

/-- What "runs the network-ensure step first" means for one accessor
outcome: the configured-interface query ran exactly once;
`SetupNetworking` was invoked — with exactly the single synthesized
dynamic network on the default interface name — iff that query returned
the empty list (so pre-existing configuration is never touched); and a
failing query or setup aborts the fetch with the corresponding wrapped
error before any HTTP request is issued. -/
def EnsuresNetworkFirst {α : Type} (env : Env) (out : FetchOut α) : Prop :=
  out.ifaceQueries = 1 ∧
  (env.getConfiguredNetworkInterfaces = .ok [] → out.setupCalls = [defaultDHCPNetworks]) ∧
  (env.getConfiguredNetworkInterfaces ≠ .ok [] → out.setupCalls = []) ∧
  (∀ e, env.getConfiguredNetworkInterfaces = .error e →
    out.result = .error (wrapError "Getting configured network interfaces" e) ∧
    out.httpRequests = []) ∧
  (∀ e, env.getConfiguredNetworkInterfaces = .ok [] →
    env.setupNetworkingResult defaultDHCPNetworks = .error e →
    out.result = .error (wrapError "Setting up initial DHCP network" e) ∧
    out.httpRequests = [])

/-! ## Supporting lemmas -/

theorem ensure_ifaceQueries (env : Env) :
    (ensureMinimalNetworkSetup env).ifaceQueries = 1 := by
  unfold ensureMinimalNetworkSetup
  cases henv : env.getConfiguredNetworkInterfaces with
  | error e => rfl
  | ok l =>
    by_cases hl : l.length = 0
    · simp only [if_pos hl]
      cases env.setupNetworkingResult defaultDHCPNetworks <;> rfl
    · simp only [if_neg hl]

theorem ensure_setupCalls_of_empty (env : Env)
    (h : env.getConfiguredNetworkInterfaces = .ok []) :
    (ensureMinimalNetworkSetup env).setupCalls = [defaultDHCPNetworks] := by
  unfold ensureMinimalNetworkSetup
  rw [h]
  simp only [List.length_nil, if_pos rfl]
  cases env.setupNetworkingResult defaultDHCPNetworks <;> rfl

theorem ensure_setupCalls_of_nonempty (env : Env)
    (h : env.getConfiguredNetworkInterfaces ≠ .ok []) :
    (ensureMinimalNetworkSetup env).setupCalls = [] := by
  unfold ensureMinimalNetworkSetup
  cases henv : env.getConfiguredNetworkInterfaces with
  | error e => rfl
  | ok l =>
    cases l with
    | nil => exact absurd henv h
    | cons x xs => simp

theorem ensure_result_of_query_error (env : Env) (e : String)
    (h : env.getConfiguredNetworkInterfaces = .error e) :
    (ensureMinimalNetworkSetup env).result =
      .error (wrapError "Getting configured network interfaces" e) := by
  unfold ensureMinimalNetworkSetup
  rw [h]

theorem ensure_result_of_setup_error (env : Env) (e : String)
    (h : env.getConfiguredNetworkInterfaces = .ok [])
    (hs : env.setupNetworkingResult defaultDHCPNetworks = .error e) :
    (ensureMinimalNetworkSetup env).result =
      .error (wrapError "Setting up initial DHCP network" e) := by
  unfold ensureMinimalNetworkSetup
  rw [h]
  simp [hs]

theorem lookupFile_setFile_self (l : List (String × String)) (p c : String) :
    lookupFile (setFile l p c) p = some c := by
  induction l with
  | nil => simp [setFile, lookupFile]
  | cons hd tl ih =>
    by_cases hq : hd.1 = p
    · simp [setFile, lookupFile, hq]
    · simp [setFile, lookupFile, hq, ih]

theorem lookupFile_setFile_ne (l : List (String × String)) (p q c : String) (h : q ≠ p) :
    lookupFile (setFile l q c) p = lookupFile l p := by
  induction l with
  | nil => simp [setFile, lookupFile, h]
  | cons hd tl ih =>
    by_cases hq : hd.1 = q
    · simp [setFile, lookupFile, hq, h]
    · simp [setFile, lookupFile, hq, ih]

theorem setFile_of_lookup_eq (l : List (String × String)) (p c : String)
    (h : lookupFile l p = some c) : setFile l p c = l := by
  induction l with
  | nil => simp [lookupFile] at h
  | cons hd tl ih =>
    obtain ⟨q, d⟩ := hd
    by_cases hq : q = p
    · simp [lookupFile, hq] at h
      simp [setFile, hq, h]
    · simp [lookupFile, hq] at h
      simp [setFile, hq, ih h]

theorem writeArtifacts_readFailures (fs : FsState) (arts : List Artifact) (c : Bool) :
    (writeArtifacts fs arts c).fs.readFailures = fs.readFailures := by
  induction arts generalizing fs c with
  | nil => rfl
  | cons a rest ih =>
    unfold writeArtifacts
    cases hw : fs.writeFile a.path a.content with
    | error e => rfl
    | ok fs2 =>
      have hfs2 : fs2.readFailures = fs.readFailures := by
        unfold FsState.writeFile at hw
        by_cases hp : a.path ∈ fs.writeFailures
        · simp [hp] at hw
        · simp [hp] at hw
          rw [← hw]
      rw [ih fs2, hfs2]

theorem writeArtifacts_writeFailures (fs : FsState) (arts : List Artifact) (c : Bool) :
    (writeArtifacts fs arts c).fs.writeFailures = fs.writeFailures := by
  induction arts generalizing fs c with
  | nil => rfl
  | cons a rest ih =>
    unfold writeArtifacts
    cases hw : fs.writeFile a.path a.content with
    | error e => rfl
    | ok fs2 =>
      have hfs2 : fs2.writeFailures = fs.writeFailures := by
        unfold FsState.writeFile at hw
        by_cases hp : a.path ∈ fs.writeFailures
        · simp [hp] at hw
        · simp [hp] at hw
          rw [← hw]
      rw [ih fs2, hfs2]

theorem writeFile_ok_files (fs : FsState) (p c : String) (fs2 : FsState)
    (hw : fs.writeFile p c = .ok fs2) :
    fs2.files = setFile fs.files p c ∧ fs2.readFailures = fs.readFailures ∧
      fs2.writeFailures = fs.writeFailures ∧ p ∉ fs.writeFailures := by
  unfold FsState.writeFile at hw
  by_cases hp : p ∈ fs.writeFailures
  · simp [hp] at hw
  · simp [hp] at hw
    rw [← hw]
    exact ⟨rfl, rfl, rfl, hp⟩

theorem writeArtifacts_lookup_not_mem (fs : FsState) (arts : List Artifact) (c : Bool)
    (p : String) (hp : p ∉ arts.map (·.path)) :
    lookupFile (writeArtifacts fs arts c).fs.files p = lookupFile fs.files p := by
  induction arts generalizing fs c with
  | nil => rfl
  | cons a rest ih =>
    simp only [List.map_cons, List.mem_cons, not_or] at hp
    unfold writeArtifacts
    cases hw : fs.writeFile a.path a.content with
    | error e => rfl
    | ok fs2 =>
      have h2 := writeFile_ok_files fs a.path a.content fs2 hw
      rw [ih fs2 _ hp.2, h2.1, lookupFile_setFile_ne _ _ _ _ (fun h => hp.1 h.symm)]

theorem writeArtifacts_ok_lookup (fs : FsState) (arts : List Artifact) (c : Bool)
    (hnd : (arts.map (·.path)).Nodup)
    (hok : (writeArtifacts fs arts c).writeErr = none) :
    ∀ a ∈ arts, lookupFile (writeArtifacts fs arts c).fs.files a.path = some a.content := by
  induction arts generalizing fs c with
  | nil => intro a ha; exact absurd ha (List.not_mem_nil a)
  | cons b rest ih =>
    simp only [List.map_cons, List.nodup_cons] at hnd
    intro a ha
    unfold writeArtifacts at hok ⊢
    cases hw : fs.writeFile b.path b.content with
    | error e => rw [hw] at hok; exact absurd hok (by simp)
    | ok fs2 =>
      rw [hw] at hok
      have h2 := writeFile_ok_files fs b.path b.content fs2 hw
      rcases List.mem_cons.mp ha with rfl | hmem
      · rw [writeArtifacts_lookup_not_mem fs2 rest _ a.path hnd.1, h2.1]
        exact lookupFile_setFile_self fs.files a.path a.content
      · exact ih fs2 _ hnd.2 hok a hmem

theorem writeArtifacts_ok_not_writeFailure (fs : FsState) (arts : List Artifact) (c : Bool)
    (hok : (writeArtifacts fs arts c).writeErr = none) :
    ∀ a ∈ arts, a.path ∉ fs.writeFailures := by
  induction arts generalizing fs c with
  | nil => intro a ha; exact absurd ha (List.not_mem_nil a)
  | cons b rest ih =>
    intro a ha
    unfold writeArtifacts at hok
    cases hw : fs.writeFile b.path b.content with
    | error e => rw [hw] at hok; exact absurd hok (by simp)
    | ok fs2 =>
      rw [hw] at hok
      have h2 := writeFile_ok_files fs b.path b.content fs2 hw
      rcases List.mem_cons.mp ha with rfl | hmem
      · exact h2.2.2.2
      · have := ih fs2 _ hok a hmem
        rw [h2.2.2.1] at this
        exact this

theorem writeArtifacts_unchanged (fs : FsState) (arts : List Artifact) (c : Bool)
    (h : ∀ a ∈ arts, lookupFile fs.files a.path = some a.content ∧ a.path ∉ fs.writeFailures) :
    writeArtifacts fs arts c = { fs := fs, changed := c } := by
  induction arts generalizing c with
  | nil => rfl
  | cons a rest ih =>
    have ha := h a (List.mem_cons_self a rest)
    unfold writeArtifacts
    have hw : fs.writeFile a.path a.content = .ok fs := by
      unfold FsState.writeFile
      rw [if_neg ha.2, setFile_of_lookup_eq fs.files a.path a.content ha.1]
    rw [hw]
    have hch : (c || decide (lookupFile fs.files a.path ≠ some a.content)) = c := by
      rw [ha.1]
      simp
    rw [hch]
    exact ih c (fun b hb => h b (List.mem_cons_of_mem a hb))

theorem writeArtifacts_changed_true (fs : FsState) (arts : List Artifact) :
    (writeArtifacts fs arts true).changed = true := by
  induction arts generalizing fs with
  | nil => rfl
  | cons a rest ih =>
    unfold writeArtifacts
    cases hw : fs.writeFile a.path a.content with
    | error e => rfl
    | ok fs2 => simpa using ih fs2

theorem writeArtifacts_changed_of_diff (fs : FsState) (arts : List Artifact) (c : Bool)
    (hnd : (arts.map (·.path)).Nodup)
    (hok : (writeArtifacts fs arts c).writeErr = none)
    (a : Artifact) (ha : a ∈ arts)
    (hdiff : lookupFile fs.files a.path ≠ some a.content) :
    (writeArtifacts fs arts c).changed = true := by
  induction arts generalizing fs c with
  | nil => exact absurd ha (List.not_mem_nil a)
  | cons b rest ih =>
    simp only [List.map_cons, List.nodup_cons] at hnd
    unfold writeArtifacts at hok ⊢
    cases hw : fs.writeFile b.path b.content with
    | error e => rw [hw] at hok; exact absurd hok (by simp)
    | ok fs2 =>
      rw [hw] at hok
      have h2 := writeFile_ok_files fs b.path b.content fs2 hw
      rcases List.mem_cons.mp ha with rfl | hmem
      · have hch : (c || decide (lookupFile fs.files a.path ≠ some a.content)) = true := by
          simp [hdiff]
        rw [hch]
        exact writeArtifacts_changed_true fs2 rest
      · have hne : a.path ≠ b.path := by
          intro hcontra
          exact hnd.1 (hcontra ▸ List.mem_map_of_mem (·.path) hmem)
        have hdiff2 : lookupFile fs2.files a.path ≠ some a.content := by
          rw [h2.1, lookupFile_setFile_ne _ _ _ _ (Ne.symm hne)]
          exact hdiff
        exact ih fs2 _ hnd.2 hok hmem hdiff2

theorem readFile_ok_iff (fs : FsState) (p c : String) :
    fs.readFile p = .ok c ↔ p ∉ fs.readFailures ∧ lookupFile fs.files p = some c := by
  unfold FsState.readFile
  by_cases hp : p ∈ fs.readFailures
  · simp [hp]
  · cases hl : lookupFile fs.files p <;> simp [hp, hl]

/-! ## Claim theorems -/

/-- C1: for every URL, when the metadata cache file for that URL's hash
exists and can be read, `doGet` returns exactly the cached bytes, issues
no HTTP request, and returns the filesystem unchanged — the entry is
neither rewritten, invalidated nor refreshed. -/
theorem doGet_cache_hit_short_circuits (env : Env) (ms : HttpMetadataService) (fs : FsState)
    (url c : String)
    (hc : lookupFile fs.files (cachePath env url) = some c)
    (hr : cachePath env url ∉ fs.readFailures) :
    doGet env ms fs url =
      { result := .ok c, fs := fs, httpRequests := [], cacheReads := 1 } := by
  have hread : fs.readFile (cachePath env url) = .ok c := by
    unfold FsState.readFile
    rw [if_neg hr, hc]
  unfold doGet
  simp only [hread]

/-- C1 witness: a concrete cache hit returning the cached bytes with no
HTTP request and the filesystem unchanged. -/
theorem doGet_cache_hit_witness :
    lookupFile fsHit.files (cachePath envBase "http://fake-metadata-host/user-data") =
        some "cached-response" ∧
    cachePath envBase "http://fake-metadata-host/user-data" ∉ fsHit.readFailures ∧
    doGet envBase msBase fsHit "http://fake-metadata-host/user-data" =
      { result := .ok "cached-response", fs := fsHit, httpRequests := [], cacheReads := 1 } :=
  ⟨by decide, by decide,
   doGet_cache_hit_short_circuits envBase msBase fsHit "http://fake-metadata-host/user-data"
     "cached-response" (by decide) (by decide)⟩

/-- C4: on a cache miss, when the HTTP GET (through the bounded-retry
client) and the body read succeed, `doGet` persists the raw body at the
cache path before returning it, so the returned bytes and the on-disk
entry are byte-identical; if the cache write fails, `doGet` returns the
wrapped "Caching response body" error instead of the fetched bytes. -/
theorem doGet_cache_miss_writes_through (env : Env) (ms : HttpMetadataService) (fs : FsState)
    (url body : String)
    (hmiss : lookupFile fs.files (cachePath env url) = none)
    (hreq : env.newRequestErr url = none)
    (hdo : env.clientDoResult url = .ok ())
    (hbody : env.readAllResult url = .ok body) :
    (cachePath env url ∉ fs.writeFailures →
      doGet env ms fs url =
        { result := .ok body,
          fs := { fs with files := setFile fs.files (cachePath env url) body },
          httpRequests := [(url, ms.metadataHeaders)], cacheReads := 1 } ∧
      lookupFile (doGet env ms fs url).fs.files (cachePath env url) = some body) ∧
    (cachePath env url ∈ fs.writeFailures →
      (doGet env ms fs url).result =
        .error (wrapError "Caching response body" (wrapError "Writing file" (cachePath env url))) ∧
      (doGet env ms fs url).fs = fs) := by
  have hread : ∀ c, fs.readFile (cachePath env url) ≠ .ok c := by
    intro c hcontra
    rw [(readFile_ok_iff fs _ c).mp hcontra |>.2] at hmiss
    exact Option.noConfusion hmiss
  rcases hre : fs.readFile (cachePath env url) with e | c
  case ok => exact absurd hre (hread c)
  unfold doGet
  constructor
  · intro hw
    have hwrite : fs.writeFile (cachePath env url) body =
        .ok { fs with files := setFile fs.files (cachePath env url) body } := by
      unfold FsState.writeFile
      rw [if_neg hw]
    simp only [hre, hreq, hdo, hbody, hwrite]
    exact ⟨trivial, lookupFile_setFile_self fs.files (cachePath env url) body⟩
  · intro hw
    have hwrite : fs.writeFile (cachePath env url) body =
        .error (wrapError "Writing file" (cachePath env url)) := by
      unfold FsState.writeFile
      rw [if_pos hw]
    simp only [hre, hreq, hdo, hbody, hwrite]
    exact ⟨trivial, trivial⟩

/-- C4 witness: a concrete miss-then-success leaving byte-identical
content in the returned value and the on-disk cache entry, and a
concrete failing cache write surfacing the wrapped error. -/
theorem doGet_cache_miss_witness :
    lookupFile fsEmpty.files (cachePath envBase "http://fake-metadata-host/user-data") = none ∧
    (doGet envBase msBase fsEmpty "http://fake-metadata-host/user-data").result =
      .ok "fake-user-data" ∧
    lookupFile (doGet envBase msBase fsEmpty "http://fake-metadata-host/user-data").fs.files
      (cachePath envBase "http://fake-metadata-host/user-data") = some "fake-user-data" ∧
    (doGet envBase msBase fsWriteFail "http://fake-metadata-host/user-data").result =
      .error (wrapError "Caching response body"
        (wrapError "Writing file" "/var/vcap/bosh/http-metadata-service-aa")) := by
  have h1 := doGet_cache_miss_writes_through envBase msBase fsEmpty
    "http://fake-metadata-host/user-data" "fake-user-data" (by decide) rfl rfl rfl
  have h2 := doGet_cache_miss_writes_through envBase msBase fsWriteFail
    "http://fake-metadata-host/user-data" "fake-user-data" (by decide) rfl rfl rfl
  refine ⟨by decide, ?_, (h1.1 (by decide)).2, (h2.2 (by decide)).1⟩
  rw [(h1.1 (by decide)).1]

/-- C9: `GetValueAtPath` on the empty path fails immediately — with the
code's literal "empthy path" error — performing no interface query, no
`SetupNetworking` call, no HTTP request and no cache access, and leaving
the filesystem untouched; on every non-empty path it proceeds into the
ensure-and-fetch sequence (the configured-interface query runs exactly
once). -/
theorem GetValueAtPath_empty_path_rejected (env : Env) (ms : HttpMetadataService)
    (fs : FsState) (path : String) :
    (path = "" → GetValueAtPath env ms fs path =
      { result := .error "Can not retrieve metadata value for empthy path", fs := fs }) ∧
    (path ≠ "" → (GetValueAtPath env ms fs path).ifaceQueries = 1) := by
  constructor
  · intro h
    unfold GetValueAtPath
    rw [if_pos h]
  · intro h
    unfold GetValueAtPath
    rw [if_neg h]
    cases hres : (ensureMinimalNetworkSetup env).result with
    | error e => simp [hres, ensure_ifaceQueries]
    | ok u => simp [hres, ensure_ifaceQueries]

/-- C9 witness: the empty path is rejected without any effect on a
concrete service, and a concrete non-empty path reaches the ensure
step. -/
theorem GetValueAtPath_empty_path_witness :
    GetValueAtPath envBase msBase fsEmpty "" =
      { result := .error "Can not retrieve metadata value for empthy path", fs := fsEmpty } ∧
    (GetValueAtPath envBase msBase fsEmpty "/fake-path").ifaceQueries = 1 :=
  ⟨(GetValueAtPath_empty_path_rejected envBase msBase fsEmpty "").1 rfl,
   (GetValueAtPath_empty_path_rejected envBase msBase fsEmpty "/fake-path").2 (by decide)⟩

/-- C10: `IsAvailable` returns `true` for every instance of the HTTP
metadata service — it is a function of the service value alone, with no
state inspected — and `Load` likewise always returns success. -/
theorem IsAvailable_unconditionally_true (ms : HttpMetadataService) :
    IsAvailable ms = true ∧ Load ms = .ok () :=
  ⟨rfl, rfl⟩

theorem getUserData_lookupCalls (env : Env) (ms : HttpMetadataService) (fs : FsState) :
    (getUserData env ms fs).lookupCalls = [] := by
  unfold getUserData
  cases hres : (ensureMinimalNetworkSetup env).result with
  | error e => simp [hres]
  | ok u => simp [hres]

/-- C7: `GetServerName` wraps a user-data fetch or parse failure as a
"Getting user data" error; a parsed document with a zero-length server
name is the hard error "Empty server name"; otherwise the server name is
returned — in particular a successful return never carries the empty
string. -/
theorem GetServerName_empty_name_is_error (env : Env) (ms : HttpMetadataService)
    (fs : FsState) :
    (∀ e, (getUserData env ms fs).result = .error e →
      (GetServerName env ms fs).result = .error (wrapError "Getting user data" e)) ∧
    (∀ ud, (getUserData env ms fs).result = .ok ud → ud.serverName.length = 0 →
      (GetServerName env ms fs).result = .error "Empty server name") ∧
    (∀ ud, (getUserData env ms fs).result = .ok ud → ud.serverName.length ≠ 0 →
      (GetServerName env ms fs).result = .ok ud.serverName) ∧
    (∀ s, (GetServerName env ms fs).result = .ok s → s.length ≠ 0) := by
  refine ⟨?_, ?_, ?_, ?_⟩
  · intro e h
    unfold GetServerName
    simp only [h]
  · intro ud h hlen
    unfold GetServerName
    simp only [h, if_pos hlen]
  · intro ud h hlen
    unfold GetServerName
    simp only [h, if_neg hlen]
  · intro s h
    unfold GetServerName at h
    cases hu : (getUserData env ms fs).result with
    | error e => simp only [hu] at h; exact absurd h (by simp)
    | ok ud =>
      simp only [hu] at h
      by_cases hlen : ud.serverName.length = 0
      · rw [if_pos hlen] at h
        exact absurd h (by simp)
      · rw [if_neg hlen] at h
        have : ud.serverName = s := by
          have := h
          simp only [Except.ok.injEq] at this
          exact this
        rw [← this]
        exact hlen

/-- C7 witness: a concrete non-empty server name is returned, and a
concrete document with an empty server name yields the hard error. -/
theorem GetServerName_witness :
    userDataFix.serverName.length ≠ 0 ∧
    (GetServerName envBase msBase fsEmpty).result = .ok userDataFix.serverName ∧
    (GetServerName envEmptyName msBase fsEmpty).result = .error "Empty server name" :=
  ⟨by decide,
   (GetServerName_empty_name_is_error envBase msBase fsEmpty).2.2.1 userDataFix
     (by rfl) (by decide),
   (GetServerName_empty_name_is_error envEmptyName msBase fsEmpty).2.1
     { userDataFix with serverName := "" } (by rfl) (by decide)⟩

/-- C8: `GetRegistryEndpoint` performs the `LookupHost` substitution iff
the parsed user-data document supplies a non-empty nameserver list (and
then exactly once, against those nameservers and the documented
endpoint); with no nameservers the endpoint is returned literally as
specified; when user data cannot be obtained, no lookup happens. -/
theorem GetRegistryEndpoint_resolves_iff_nameservers (env : Env) (ms : HttpMetadataService)
    (fs : FsState) :
    (∀ ud, (getUserData env ms fs).result = .ok ud → ud.dnsNameserver = [] →
      (GetRegistryEndpoint env ms fs).result = .ok ud.registryEndpoint ∧
      (GetRegistryEndpoint env ms fs).lookupCalls = []) ∧
    (∀ ud, (getUserData env ms fs).result = .ok ud → ud.dnsNameserver ≠ [] →
      (GetRegistryEndpoint env ms fs).lookupCalls =
        [(ud.dnsNameserver, ud.registryEndpoint)] ∧
      (∀ r, env.lookupHost ud.dnsNameserver ud.registryEndpoint = .ok r →
        (GetRegistryEndpoint env ms fs).result = .ok r) ∧
      (∀ e, env.lookupHost ud.dnsNameserver ud.registryEndpoint = .error e →
        (GetRegistryEndpoint env ms fs).result =
          .error (wrapError "Resolving registry endpoint" e))) ∧
    (∀ e, (getUserData env ms fs).result = .error e →
      (GetRegistryEndpoint env ms fs).lookupCalls = []) := by
  refine ⟨?_, ?_, ?_⟩
  · intro ud h hns
    unfold GetRegistryEndpoint
    simp only [h, hns, List.length_nil, gt_iff_lt, lt_irrefl, if_false]
    refine ⟨?_, getUserData_lookupCalls env ms fs⟩
    trivial
  · intro ud h hns
    have hpos : ud.dnsNameserver.length > 0 := List.length_pos.mpr hns
    unfold GetRegistryEndpoint
    simp only [h, if_pos hpos]
    refine ⟨?_, ?_, ?_⟩
    · rw [getUserData_lookupCalls env ms fs]
      rfl
    · intro r hr
      simp only [hr]
    · intro e he
      simp only [he]
  · intro e h
    unfold GetRegistryEndpoint
    simp only [h]
    exact getUserData_lookupCalls env ms fs

theorem getUserData_ensuresNetworkFirst (env : Env) (ms : HttpMetadataService)
    (fs : FsState) : EnsuresNetworkFirst env (getUserData env ms fs) := by
  unfold EnsuresNetworkFirst getUserData
  refine ⟨?_, ?_, ?_, ?_, ?_⟩
  · cases hres : (ensureMinimalNetworkSetup env).result <;>
      simp [hres, ensure_ifaceQueries]
  · intro h
    have hsc := ensure_setupCalls_of_empty env h
    cases hres : (ensureMinimalNetworkSetup env).result <;> simp [hres, hsc]
  · intro h
    have hsc := ensure_setupCalls_of_nonempty env h
    cases hres : (ensureMinimalNetworkSetup env).result <;> simp [hres, hsc]
  · intro e h
    have hr := ensure_result_of_query_error env e h
    simp [hr]
  · intro e h hs
    have hr := ensure_result_of_setup_error env e h hs
    simp [hr]

theorem GetPublicKey_ensuresNetworkFirst (env : Env) (ms : HttpMetadataService)
    (fs : FsState) (h : ms.sshKeysPath ≠ "") :
    EnsuresNetworkFirst env (GetPublicKey env ms fs) := by
  unfold EnsuresNetworkFirst GetPublicKey
  rw [if_neg h]
  refine ⟨?_, ?_, ?_, ?_, ?_⟩
  · cases hres : (ensureMinimalNetworkSetup env).result <;>
      simp [hres, ensure_ifaceQueries]
  · intro hq
    have hsc := ensure_setupCalls_of_empty env hq
    cases hres : (ensureMinimalNetworkSetup env).result <;> simp [hres, hsc]
  · intro hq
    have hsc := ensure_setupCalls_of_nonempty env hq
    cases hres : (ensureMinimalNetworkSetup env).result <;> simp [hres, hsc]
  · intro e hq
    have hr := ensure_result_of_query_error env e hq
    simp [hr]
  · intro e hq hs
    have hr := ensure_result_of_setup_error env e hq hs
    simp [hr]

theorem GetInstanceID_ensuresNetworkFirst (env : Env) (ms : HttpMetadataService)
    (fs : FsState) (h : ms.instanceIDPath ≠ "") :
    EnsuresNetworkFirst env (GetInstanceID env ms fs) := by
  unfold EnsuresNetworkFirst GetInstanceID
  rw [if_neg h]
  refine ⟨?_, ?_, ?_, ?_, ?_⟩
  · cases hres : (ensureMinimalNetworkSetup env).result <;>
      simp [hres, ensure_ifaceQueries]
  · intro hq
    have hsc := ensure_setupCalls_of_empty env hq
    cases hres : (ensureMinimalNetworkSetup env).result <;> simp [hres, hsc]
  · intro hq
    have hsc := ensure_setupCalls_of_nonempty env hq
    cases hres : (ensureMinimalNetworkSetup env).result <;> simp [hres, hsc]
  · intro e hq
    have hr := ensure_result_of_query_error env e hq
    simp [hr]
  · intro e hq hs
    have hr := ensure_result_of_setup_error env e hq hs
    simp [hr]

theorem GetValueAtPath_ensuresNetworkFirst (env : Env) (ms : HttpMetadataService)
    (fs : FsState) (path : String) (h : path ≠ "") :
    EnsuresNetworkFirst env (GetValueAtPath env ms fs path) := by
  unfold EnsuresNetworkFirst GetValueAtPath
  rw [if_neg h]
  refine ⟨?_, ?_, ?_, ?_, ?_⟩
  · cases hres : (ensureMinimalNetworkSetup env).result <;>
      simp [hres, ensure_ifaceQueries]
  · intro hq
    have hsc := ensure_setupCalls_of_empty env hq
    cases hres : (ensureMinimalNetworkSetup env).result <;> simp [hres, hsc]
  · intro hq
    have hsc := ensure_setupCalls_of_nonempty env hq
    cases hres : (ensureMinimalNetworkSetup env).result <;> simp [hres, hsc]
  · intro e hq
    have hr := ensure_result_of_query_error env e hq
    simp [hr]
  · intro e hq hs
    have hr := ensure_result_of_setup_error env e hq hs
    simp [hr]

/-- C2: every metadata fetch — `GetPublicKey` and `GetInstanceID` with
their configured path present, `GetValueAtPath` with a non-empty path,
and every accessor going through `getUserData` — first runs the
network-ensure step: the configured-interface query runs exactly once;
iff its answer is the empty list, `SetupNetworking` is invoked with the
single synthesized dynamic network on the default interface name
(pre-existing configuration is otherwise left untouched); and a failing
query or setup aborts the fetch with the corresponding wrapped error and
no HTTP request. -/
theorem every_fetch_ensures_network_first (env : Env) (ms : HttpMetadataService)
    (fs : FsState) (path : String)
    (hssh : ms.sshKeysPath ≠ "") (hiid : ms.instanceIDPath ≠ "") (hpath : path ≠ "") :
    EnsuresNetworkFirst env (GetPublicKey env ms fs) ∧
    EnsuresNetworkFirst env (GetInstanceID env ms fs) ∧
    EnsuresNetworkFirst env (GetValueAtPath env ms fs path) ∧
    EnsuresNetworkFirst env (getUserData env ms fs) :=
  ⟨GetPublicKey_ensuresNetworkFirst env ms fs hssh,
   GetInstanceID_ensuresNetworkFirst env ms fs hiid,
   GetValueAtPath_ensuresNetworkFirst env ms fs path hpath,
   getUserData_ensuresNetworkFirst env ms fs⟩

/-- C2 witness: on a concrete service, a failing interface query aborts
`GetPublicKey` with the wrapped error and no HTTP request, and an empty
interface list makes `getUserData` invoke `SetupNetworking` with exactly
the synthesized dynamic `eth0` network. -/
theorem every_fetch_ensures_network_witness :
    msBase.sshKeysPath ≠ "" ∧
    (GetPublicKey envQueryErr msBase fsEmpty).result =
      .error (wrapError "Getting configured network interfaces" "fake-get-interfaces-error") ∧
    (GetPublicKey envQueryErr msBase fsEmpty).httpRequests = [] ∧
    (getUserData envSetupErr msBase fsEmpty).setupCalls = [defaultDHCPNetworks] := by
  have h1 := every_fetch_ensures_network_first envQueryErr msBase fsEmpty "/fake-path"
    (by decide) (by decide) (by decide)
  have h2 := every_fetch_ensures_network_first envSetupErr msBase fsEmpty "/fake-path"
    (by decide) (by decide) (by decide)
  have hq := h1.1.2.2.2.1 "fake-get-interfaces-error" rfl
  exact ⟨by decide, hq.1, hq.2, h2.2.2.2.2.1 rfl⟩

/-- C3 counterexample: with an empty configured user-data path,
`GetNetworks` still performs the network-ensure step (one interface
query) and — here, with a failing query — returns an error, refuting
"empty configured path means empty value, no error, and no network-
ensure step" for `GetNetworks`. -/
theorem GetNetworks_ignores_empty_path :
    msEmptyPaths.userdataPath = "" ∧
    (GetNetworks envQueryErr msEmptyPaths fsEmpty).ifaceQueries = 1 ∧
    (GetNetworks envQueryErr msEmptyPaths fsEmpty).result =
      .error (wrapError "Getting user data"
        (wrapError "Getting configured network interfaces" "fake-get-interfaces-error")) :=
  ⟨rfl, rfl, rfl⟩

/-- C3 (amended): for `GetPublicKey` and `GetInstanceID` an empty
configured path returns the empty value with no error and with no
effect at all (no interface query, no `SetupNetworking` call, no HTTP
request, no cache access); `GetNetworks`, however, has no such guard —
it always performs the ensure-and-fetch of the user-data document,
whatever the configured paths. -/
theorem empty_configured_path_unsupported (env : Env) (ms : HttpMetadataService)
    (fs : FsState) :
    (ms.sshKeysPath = "" → GetPublicKey env ms fs = { result := .ok "", fs := fs }) ∧
    (ms.instanceIDPath = "" → GetInstanceID env ms fs = { result := .ok "", fs := fs }) ∧
    (GetNetworks env ms fs).ifaceQueries = 1 := by
  refine ⟨?_, ?_, ?_⟩
  · intro h
    unfold GetPublicKey
    rw [if_pos h]
  · intro h
    unfold GetInstanceID
    rw [if_pos h]
  · show (getUserData env ms fs).ifaceQueries = 1
    unfold getUserData
    cases hres : (ensureMinimalNetworkSetup env).result <;>
      simp [hres, ensure_ifaceQueries]

/-- C3 witness: on a concrete service with all paths empty, the public
key and instance id come back empty with no error and no effect. -/
theorem empty_configured_path_witness :
    msEmptyPaths.sshKeysPath = "" ∧
    GetPublicKey envBase msEmptyPaths fsEmpty = { result := .ok "", fs := fsEmpty } ∧
    GetInstanceID envBase msEmptyPaths fsEmpty = { result := .ok "", fs := fsEmpty } :=
  ⟨rfl, (empty_configured_path_unsupported envBase msEmptyPaths fsEmpty).1 rfl,
   (empty_configured_path_unsupported envBase msEmptyPaths fsEmpty).2.1 rfl⟩

/-- C8 witness: with documented nameservers a concrete lookup happens
exactly once and its result is returned; without nameservers the
documented endpoint is returned literally with no lookup. -/
theorem GetRegistryEndpoint_witness :
    userDataFix.dnsNameserver ≠ [] ∧
    (GetRegistryEndpoint envBase msBase fsEmpty).lookupCalls =
      [(userDataFix.dnsNameserver, userDataFix.registryEndpoint)] ∧
    (GetRegistryEndpoint envNoNameservers msBase fsEmpty).result =
      .ok userDataFix.registryEndpoint ∧
    (GetRegistryEndpoint envNoNameservers msBase fsEmpty).lookupCalls = [] :=
  ⟨by decide,
   ((GetRegistryEndpoint_resolves_iff_nameservers envBase msBase fsEmpty).2.1 userDataFix
     (by rfl) (by decide)).1,
   ((GetRegistryEndpoint_resolves_iff_nameservers envNoNameservers msBase fsEmpty).1
     { userDataFix with dnsNameserver := [] } (by rfl) (by rfl)).1,
   ((GetRegistryEndpoint_resolves_iff_nameservers envNoNameservers msBase fsEmpty).1
     { userDataFix with dnsNameserver := [] } (by rfl) (by rfl)).2⟩

theorem setupNetworking_ok_writeErr (ifaces : List Iface) (nets : Networks)
    (r : Except String Unit) (fs : FsState)
    (h : (setupNetworking ifaces nets r fs).result = .ok ()) :
    (writeArtifacts fs (plannedArtifacts ifaces nets) false).writeErr = none := by
  unfold setupNetworking at h
  unfold plannedArtifacts
  cases ha : associateNetworks ifaces nets with
  | error e => simp only [ha] at h; exact absurd h (by simp)
  | ok pairs =>
    simp only [ha] at h ⊢
    cases hc : pairs.mapM (fun p => createInterfaceConfiguration p.1 p.2) with
    | error e => simp only [hc] at h; exact absurd h (by simp)
    | ok configs =>
      simp only [hc] at h ⊢
      cases hw : (writeArtifacts fs (renderArtifacts (dnsServersOf nets) configs) false).writeErr with
      | some e => simp only [hw] at h; exact absurd h (by simp)
      | none => rfl

theorem setupNetworking_fs_eq (ifaces : List Iface) (nets : Networks)
    (r : Except String Unit) (fs : FsState) (pairs : List (String × Network))
    (configs : List InterfaceConfiguration)
    (ha : associateNetworks ifaces nets = .ok pairs)
    (hc : pairs.mapM (fun p => createInterfaceConfiguration p.1 p.2) = .ok configs)
    (hw : (writeArtifacts fs (renderArtifacts (dnsServersOf nets) configs) false).writeErr = none) :
    (setupNetworking ifaces nets r fs).fs =
      (writeArtifacts fs (renderArtifacts (dnsServersOf nets) configs) false).fs := by
  unfold setupNetworking
  simp only [ha, hc, hw]
  cases hchg : (writeArtifacts fs (renderArtifacts (dnsServersOf nets) configs) false).changed <;>
    simp [hchg]

/-- C5 (spec-modelled): `SetupNetworking` is idempotent in its restart
decision — after one successful call, a second call with the identical
spec, the identical discovered interfaces, and no external changes to
the written files finds every artifact byte-identical on disk, so the
single "network changed" flag stays false and the network-restart
command is invoked zero times (the second call also succeeds).  The
uniqueness hypothesis on the rendered paths reflects the spec's data
invariant that at most one network entry may bind a given interface. -/
theorem setupNetworking_idempotent_no_second_restart (ifaces : List Iface) (nets : Networks)
    (r : Except String Unit) (fs : FsState)
    (hnd : ((plannedArtifacts ifaces nets).map (·.path)).Nodup)
    (h1 : (setupNetworking ifaces nets r fs).result = .ok ()) :
    (setupNetworking ifaces nets r ((setupNetworking ifaces nets r fs).fs)).runCommands = [] ∧
    (setupNetworking ifaces nets r ((setupNetworking ifaces nets r fs).fs)).result = .ok () := by
  have hwe := setupNetworking_ok_writeErr ifaces nets r fs h1
  unfold setupNetworking at h1
  cases ha : associateNetworks ifaces nets with
  | error e => simp only [ha] at h1; exact absurd h1 (by simp)
  | ok pairs =>
    simp only [ha] at h1
    cases hc : pairs.mapM (fun p => createInterfaceConfiguration p.1 p.2) with
    | error e => simp only [hc] at h1; exact absurd h1 (by simp)
    | ok configs =>
      have hpl : plannedArtifacts ifaces nets = renderArtifacts (dnsServersOf nets) configs := by
        unfold plannedArtifacts
        simp only [ha, hc]
      rw [hpl] at hwe hnd
      have hfs1 := setupNetworking_fs_eq ifaces nets r fs pairs configs ha hc hwe
      have hlook := writeArtifacts_ok_lookup fs (renderArtifacts (dnsServersOf nets) configs)
        false hnd hwe
      have hnw := writeArtifacts_ok_not_writeFailure fs
        (renderArtifacts (dnsServersOf nets) configs) false hwe
      have hwfs := writeArtifacts_writeFailures fs
        (renderArtifacts (dnsServersOf nets) configs) false
      have hunch : writeArtifacts
          (writeArtifacts fs (renderArtifacts (dnsServersOf nets) configs) false).fs
          (renderArtifacts (dnsServersOf nets) configs) false =
          { fs := (writeArtifacts fs (renderArtifacts (dnsServersOf nets) configs) false).fs,
            changed := false } := by
        apply writeArtifacts_unchanged
        intro a haa
        refine ⟨hlook a haa, ?_⟩
        rw [hwfs]
        exact hnw a haa
      rw [hfs1]
      unfold setupNetworking
      simp only [ha, hc, hunch]
      exact ⟨rfl, rfl⟩

/-- C5 witness: on the test fixtures, the first pass over an empty
filesystem succeeds and the second identical pass runs zero commands. -/
theorem setupNetworking_idempotent_witness :
    ((plannedArtifacts ifacesFix netsFix).map (·.path)).Nodup ∧
    (setupNetworking ifacesFix netsFix (.ok ()) fsEmpty).result = .ok () ∧
    (setupNetworking ifacesFix netsFix (.ok ()) fsConverged).runCommands = [] :=
  ⟨by decide, by rfl,
   (setupNetworking_idempotent_no_second_restart ifacesFix netsFix (.ok ()) fsEmpty
     (by decide) (by rfl)).1⟩

/-- C6 (spec-modelled): whenever at least one rendered artifact's new
content differs from the current on-disk content (a missing file
included) — in particular when exactly one previously-written ifcfg file
differs — a successful `SetupNetworking` call invokes the
network-restart command exactly once, however many other artifacts are
unchanged. -/
theorem setupNetworking_restarts_once_on_diff (ifaces : List Iface) (nets : Networks)
    (r : Except String Unit) (fs : FsState)
    (hnd : ((plannedArtifacts ifaces nets).map (·.path)).Nodup)
    (h1 : (setupNetworking ifaces nets r fs).result = .ok ())
    (hdiff : ∃ a ∈ plannedArtifacts ifaces nets,
      lookupFile fs.files a.path ≠ some a.content) :
    (setupNetworking ifaces nets r fs).runCommands = [restartCmd] := by
  have hwe := setupNetworking_ok_writeErr ifaces nets r fs h1
  unfold setupNetworking at h1 ⊢
  cases ha : associateNetworks ifaces nets with
  | error e => simp only [ha] at h1; exact absurd h1 (by simp)
  | ok pairs =>
    simp only [ha] at h1 ⊢
    cases hc : pairs.mapM (fun p => createInterfaceConfiguration p.1 p.2) with
    | error e => simp only [hc] at h1; exact absurd h1 (by simp)
    | ok configs =>
      simp only [hc] at h1 ⊢
      have hpl : plannedArtifacts ifaces nets = renderArtifacts (dnsServersOf nets) configs := by
        unfold plannedArtifacts
        simp only [ha, hc]
      rw [hpl] at hwe hnd hdiff
      obtain ⟨a, haa, hal⟩ := hdiff
      have hchg := writeArtifacts_changed_of_diff fs
        (renderArtifacts (dnsServersOf nets) configs) false hnd hwe a haa hal
      simp only [hwe, hchg]
      rfl

/-- C6 witness: on the test fixtures with exactly one previously-written
ifcfg file perturbed and every other artifact unchanged, the restart
command runs exactly once. -/
theorem setupNetworking_one_diff_witness :
    ((plannedArtifacts ifacesFix netsFix).map (·.path)).Nodup ∧
    (∃ a ∈ plannedArtifacts ifacesFix netsFix,
      lookupFile fsOneDiff.files a.path ≠ some a.content) ∧
    (setupNetworking ifacesFix netsFix (.ok ()) fsOneDiff).runCommands = [restartCmd] :=
  ⟨by decide, by decide,
   setupNetworking_restarts_once_on_diff ifacesFix netsFix (.ok ()) fsOneDiff
     (by decide) (by rfl) (by decide)⟩

end BoshAgent
